import Mathlib

/-!
Verification of the core fetch+format logic of `src/github_activity.py`
(GitHub User Activity CLI) against its natural-language specification.

The Python module is shallowly embedded:

* JSON-decoded Python values (the output of `json.loads`) are modelled by
  the inductive type `JVal`.  JSON numbers are modelled as integers, which
  covers every value the claims exercise.
* The Python exceptions that the formatting code can raise or catch are
  modelled by `PyExn`: `KeyError` (dict subscript with a missing key),
  `TypeError` (subscripting a non-dict, or using an unhashable value as a
  dict key) and `AttributeError` (calling a method such as `.get` or
  `.capitalize` on a value that does not have it).
* Fallible Python expressions become `Except PyExn` values; the
  `try/except (KeyError, TypeError)` of `format_activity` is an explicit
  match on the two caught constructors.
* The network is a function from the request URL to a `NetResult`:
  `urllib.request.urlopen` either returns a response (2xx), raises
  `urllib.error.HTTPError` (all error statuses), or raises
  `urllib.error.URLError`.  `json.loads` is modelled as an oracle: the
  response body is carried as `Option JVal` (`some v` when the body parses
  to `v`, `none` when parsing fails with `JSONDecodeError`).
* `str.capitalize`, `str.strip` and f-string interpolation (`str()`) are
  modelled character-wise over ASCII; Lean `Char.toUpper`/`Char.toLower`
  agree with Python on ASCII, which covers every input the claims use.
-/

/-- A JSON-decoded Python value: the possible results of `json.loads`
(numbers modelled as integers). -/
inductive JVal where
  | null
  | bool (b : Bool)
  | num (n : Int)
  | str (s : String)
  | arr (xs : List JVal)
  | obj (fields : List (String × JVal))

/-- The Python exception kinds the formatter code can raise:
`KeyError`, `TypeError`, `AttributeError`. -/
inductive PyExn where
  | keyError
  | typeError
  | attributeError
deriving DecidableEq

/-- Key lookup in a decoded JSON object (Python dict with string keys). -/
def lookupObj (fields : List (String × JVal)) (k : String) : Option JVal :=
  (fields.find? (fun p => p.1 == k)).map Prod.snd

/-- Python `v.get(k, d)`: only dicts have the `.get` method, any other
value raises `AttributeError`. -/
def dictGet (v : JVal) (k : String) (d : JVal) : Except PyExn JVal :=
  match v with
  | .obj fs => .ok ((lookupObj fs k).getD d)
  | _ => .error .attributeError

/-- Python `v[k]` with a string key: on a dict, `KeyError` when the key is
missing; on any non-dict value (str, list, int, None, bool), `TypeError`. -/
def subscript (v : JVal) (k : String) : Except PyExn JVal :=
  match v with
  | .obj fs =>
    match lookupObj fs k with
    | some x => .ok x
    | none => .error .keyError
  | _ => .error .typeError

mutual

/-- Python `repr` of a decoded JSON value (string escaping elided; no
claim interpolates a string containing quotes). -/
def pyRepr : JVal → String
  | .null => "None"
  | .bool true => "True"
  | .bool false => "False"
  | .num n => toString n
  | .str s => "\x27" ++ s ++ "\x27"
  | .arr xs => "[" ++ pyReprList xs ++ "]"
  | .obj fs => "\x7b" ++ pyReprFields fs ++ "\x7d"

/-- Comma-separated `repr` of list elements. -/
def pyReprList : List JVal → String
  | [] => ""
  | [x] => pyRepr x
  | x :: xs => pyRepr x ++ ", " ++ pyReprList xs

/-- Comma-separated `repr` of dict entries. -/
def pyReprFields : List (String × JVal) → String
  | [] => ""
  | [(k, v)] => "\x27" ++ k ++ "\x27: " ++ pyRepr v
  | (k, v) :: fs => "\x27" ++ k ++ "\x27: " ++ pyRepr v ++ ", " ++ pyReprFields fs

end

/-- Python `str(v)` as used by f-string interpolation. -/
def pyStr : JVal → String
  | .str s => s
  | v => pyRepr v

/-- Python `str.capitalize`: first character upper-cased, the REMAINDER
LOWER-CASED (ASCII model). -/
def pyCapitalizeStr (s : String) : String :=
  match s.data with
  | [] => ""
  | c :: cs => String.mk (Char.toUpper c :: cs.map Char.toLower)

/-- Python `v.capitalize()`: only strings have the method; any other value
raises `AttributeError`. -/
def pyCapitalize (v : JVal) : Except PyExn String :=
  match v with
  | .str s => .ok (pyCapitalizeStr s)
  | _ => .error .attributeError

/-- `EVENT_FORMATTERS['PushEvent']`. -/
def fmtPushEvent (event : JVal) : Except PyExn String := do
  let payload ← subscript event "payload"
  let size ← dictGet payload "size" (JVal.num 0)
  let repo ← subscript event "repo"
  let name ← subscript repo "name"
  pure ("Pushed " ++ (pyStr size ++ (" commit(s) to " ++ pyStr name)))

/-- `EVENT_FORMATTERS['IssuesEvent']`. -/
def fmtIssuesEvent (event : JVal) : Except PyExn String := do
  let payload ← subscript event "payload"
  let action ← subscript payload "action"
  let cap ← pyCapitalize action
  let repo ← subscript event "repo"
  let name ← subscript repo "name"
  pure (cap ++ (" an issue in " ++ pyStr name))

/-- `EVENT_FORMATTERS['WatchEvent']`. -/
def fmtWatchEvent (event : JVal) : Except PyExn String := do
  let repo ← subscript event "repo"
  let name ← subscript repo "name"
  pure ("Starred " ++ pyStr name)

/-- `EVENT_FORMATTERS['CreateEvent']`. -/
def fmtCreateEvent (event : JVal) : Except PyExn String := do
  let payload ← subscript event "payload"
  let refType ← dictGet payload "ref_type" (JVal.str "repository")
  let repo ← subscript event "repo"
  let name ← subscript repo "name"
  pure ("Created " ++ (pyStr refType ++ (" in " ++ pyStr name)))

/-- `EVENT_FORMATTERS['ForkEvent']`. -/
def fmtForkEvent (event : JVal) : Except PyExn String := do
  let repo ← subscript event "repo"
  let name ← subscript repo "name"
  pure ("Forked " ++ pyStr name)

/-- `EVENT_FORMATTERS['PullRequestEvent']`. -/
def fmtPullRequestEvent (event : JVal) : Except PyExn String := do
  let payload ← subscript event "payload"
  let action ← subscript payload "action"
  let cap ← pyCapitalize action
  let repo ← subscript event "repo"
  let name ← subscript repo "name"
  pure (cap ++ (" a pull request in " ++ pyStr name))

/-- `EVENT_FORMATTERS['DeleteEvent']`. -/
def fmtDeleteEvent (event : JVal) : Except PyExn String := do
  let payload ← subscript event "payload"
  let refType ← dictGet payload "ref_type" (JVal.str "branch")
  let repo ← subscript event "repo"
  let name ← subscript repo "name"
  pure ("Deleted " ++ (pyStr refType ++ (" in " ++ pyStr name)))

/-- `EVENT_FORMATTERS['ReleaseEvent']`. -/
def fmtReleaseEvent (event : JVal) : Except PyExn String := do
  let payload ← subscript event "payload"
  let action ← subscript payload "action"
  let cap ← pyCapitalize action
  let repo ← subscript event "repo"
  let name ← subscript repo "name"
  pure (cap ++ (" a release in " ++ pyStr name))

/-- `EVENT_FORMATTERS['PublicEvent']`. -/
def fmtPublicEvent (event : JVal) : Except PyExn String := do
  let repo ← subscript event "repo"
  let name ← subscript repo "name"
  pure ("Made " ++ (pyStr name ++ " public"))

/-- The `ActivityFormatter.EVENT_FORMATTERS` table, in source order. -/
def EVENT_FORMATTERS : List (String × (JVal → Except PyExn String)) :=
  [("PushEvent", fmtPushEvent),
   ("IssuesEvent", fmtIssuesEvent),
   ("WatchEvent", fmtWatchEvent),
   ("CreateEvent", fmtCreateEvent),
   ("ForkEvent", fmtForkEvent),
   ("PullRequestEvent", fmtPullRequestEvent),
   ("DeleteEvent", fmtDeleteEvent),
   ("ReleaseEvent", fmtReleaseEvent),
   ("PublicEvent", fmtPublicEvent)]

/-- The nine keys of `EVENT_FORMATTERS`. -/
def eventKeys : List String :=
  ["PushEvent", "IssuesEvent", "WatchEvent", "CreateEvent", "ForkEvent",
   "PullRequestEvent", "DeleteEvent", "ReleaseEvent", "PublicEvent"]

/-- `cls.EVENT_FORMATTERS[event_type](event)` for a string key known to be
present; a missing key would be Python dict subscript `KeyError`. -/
def applyFormatter (t : String) (event : JVal) : Except PyExn String :=
  match EVENT_FORMATTERS.find? (fun p => p.1 == t) with
  | some p => p.2 event
  | none => .error .keyError

/-- Python `event_type in cls.EVENT_FORMATTERS`: dict membership.  An
unhashable key (list or dict) raises `TypeError`; a hashable non-string is
simply not among the string keys.  Returns the matched key when present. -/
def dictContains (keys : List String) (v : JVal) : Except PyExn (Option String) :=
  match v with
  | .arr _ => .error .typeError
  | .obj _ => .error .typeError
  | .str s => .ok (if keys.contains s then some s else none)
  | _ => .ok none

/-- One iteration of the loop body of `ActivityFormatter.format_activity`
(lines 100-112): `.ok (some line)` appends a line, `.ok none` is the
`continue` of the `except (KeyError, TypeError)` clause or a silent path,
`.error` is an uncaught exception escaping the whole call. -/
def processEvent (event : JVal) : Except PyExn (Option String) :=
  match dictGet event "type" JVal.null with
  | .error ex => .error ex
  | .ok event_type =>
    match dictContains eventKeys event_type with
    | .error ex => .error ex
    | .ok (some s) =>
      match applyFormatter s event with
      | .ok text => .ok (some ("- " ++ text))
      | .error .keyError => .ok none
      | .error .typeError => .ok none
      | .error .attributeError => .error .attributeError
    | .ok none =>
      match dictGet event "repo" (JVal.obj []) with
      | .error ex => .error ex
      | .ok repoVal =>
        match dictGet repoVal "name" (JVal.str "unknown repository") with
        | .error ex => .error ex
        | .ok nameVal =>
          .ok (some ("- " ++ (pyStr event_type ++ (" in " ++ pyStr nameVal))))

/-- The `for event in events[:10]` loop of `format_activity`, with the
accumulator `formatted_activities`. -/
def formatLoop : List JVal → List String → Except PyExn (List String)
  | [], acc => .ok acc
  | e :: rest, acc =>
    match processEvent e with
    | .error ex => .error ex
    | .ok none => formatLoop rest acc
    | .ok (some line) => formatLoop rest (acc ++ [line])

/-- `ActivityFormatter.format_activity`: truncate to the first 10 raw
events, then run the loop with an empty accumulator. -/
def format_activity (events : List JVal) : Except PyExn (List String) :=
  formatLoop (events.take 10) []

/-- The line contributed by one event, `none` when the event is skipped or
raises. -/
def lineOf (e : JVal) : Option String :=
  match processEvent e with
  | .ok (some l) => some l
  | _ => none

/-- `true` when processing the event raises no uncaught exception. -/
def noRaise (e : JVal) : Bool :=
  match processEvent e with
  | .ok _ => true
  | .error _ => false

/-- Python `str.strip()` (ASCII whitespace model). -/
def pyStrip (s : String) : String :=
  String.mk (((s.data.dropWhile Char.isWhitespace).reverse.dropWhile Char.isWhitespace).reverse)

/-- `GitHubActivityFetcher.BASE_URL`. -/
def BASE_URL : String := "https://api.github.com/users"

/-- Line 42: `url = f"{self.BASE_URL}/{username}/events"` — note the
username is interpolated exactly as given, without stripping. -/
def request_url (username : String) : String :=
  BASE_URL ++ "/" ++ username ++ "/events"

/-- What `urllib.request.urlopen` delivers for a request: a returned
response (2xx) with status and body (the body given as its `json.loads`
parse, `none` when it is not valid JSON), a raised `HTTPError` carrying
status code and reason phrase (how every error status surfaces), or a
raised `URLError` for low-level network failure. -/
inductive NetResult where
  | ok (status : Nat) (body : Option JVal)
  | httpError (code : Nat) (reason : String)
  | urlError (reason : String)

/-- The two error kinds `fetch_user_activity` raises: `ValueError`
(the InvalidInput kind) and `ConnectionError` (the ConnectionProblem
kind), each with its message. -/
inductive FetchError where
  | invalidInput (msg : String)
  | connectionProblem (msg : String)
deriving DecidableEq

/-- `GitHubActivityFetcher.fetch_user_activity` (lines 39-66).  The
network is passed as a function from the request URL to its outcome. -/
def fetch_user_activity (username : String) (net : String → NetResult) :
    Except FetchError JVal :=
  if username == "" || pyStrip username == "" then
    .error (.invalidInput "Username cannot be empty")
  else
    match net (request_url username) with
    | .ok status body =>
      if status == 200 then
        match body with
        | some data => .ok data
        | none => .error (.connectionProblem "Invalid response from GitHub API")
      else
        .error (.connectionProblem ("API returned status code: " ++ toString status))
    | .httpError code reason =>
      if code == 404 then
        .error (.invalidInput ("User \x27" ++ username ++ "\x27 not found"))
      else if code == 403 then
        .error (.connectionProblem "API rate limit exceeded. Please try again later.")
      else
        .error (.connectionProblem ("HTTP error " ++ toString code ++ ": " ++ reason))
    | .urlError reason =>
      .error (.connectionProblem ("Network error: " ++ reason))

/-! ## Concrete events used by witnesses and counterexamples -/

/-- A well-formed `WatchEvent`. -/
def evWatchGood : JVal :=
  .obj [("type", .str "WatchEvent"), ("repo", .obj [("name", .str "x/y")])]

/-- A `PushEvent` with no `payload` key at all. -/
def evPushNoPayload : JVal :=
  .obj [("type", .str "PushEvent"), ("repo", .obj [("name", .str "a/b")])]

/-- A `PushEvent` whose `payload` is the number 5 instead of a dict:
`event["payload"].get(...)` then calls `.get` on an int. -/
def evBadPush : JVal :=
  .obj [("type", .str "PushEvent"), ("payload", .num 5), ("repo", .obj [("name", .str "a/b")])]

/-- An `IssuesEvent` whose action has mixed case. -/
def evIssuesReopened : JVal :=
  .obj [("type", .str "IssuesEvent"), ("payload", .obj [("action", .str "reOPENED")]),
        ("repo", .obj [("name", .str "a/b")])]

/-- An event of the given type with a string action and a repo name. -/
def actionEvent (t a r : String) : JVal :=
  .obj [("type", .str t), ("payload", .obj [("action", .str a)]),
        ("repo", .obj [("name", .str r)])]

/-- Eleven events: a malformed `PushEvent` followed by ten good ones. -/
def evElevenList : List JVal := evPushNoPayload :: List.replicate 10 evWatchGood

/-! ## Helper lemmas -/

/-- Appending the same string on the right preserves equality. -/
theorem append_congr_right {a b : String} (h : a = b) (c : String) : a ++ c = b ++ c := by
  rw [h]

/-- When every event in the list processes without an uncaught exception,
the loop returns the accumulator extended with the surviving lines. -/
theorem formatLoop_ok (l : List JVal) (acc : List String)
    (h : ∀ e ∈ l, noRaise e = true) :
    formatLoop l acc = .ok (acc ++ l.filterMap lineOf) := by
  induction l generalizing acc with
  | nil => simp [formatLoop]
  | cons e rest ih =>
    have he : noRaise e = true := h e (List.mem_cons_self e rest)
    have hrest : ∀ x ∈ rest, noRaise x = true := fun x hx => h x (List.mem_cons_of_mem e hx)
    unfold noRaise at he
    cases hpe : processEvent e with
    | error ex => rw [hpe] at he; simp at he
    | ok o =>
      cases o with
      | none =>
        have hl : lineOf e = none := by unfold lineOf; rw [hpe]
        simp [formatLoop, hpe, List.filterMap_cons, hl, ih acc hrest]
      | some line =>
        have hl : lineOf e = some line := by unfold lineOf; rw [hpe]
        simp [formatLoop, hpe, List.filterMap_cons, hl, ih (acc ++ [line]) hrest]

/-- `filterMap` strictly shrinks a list that has an element mapped to `none`. -/
theorem filterMap_none_lt {α β : Type} (f : α → Option β) (l : List α)
    (h : ∃ e ∈ l, f e = none) : (l.filterMap f).length < l.length := by
  induction l with
  | nil => simp at h
  | cons x xs ih =>
    rcases h with ⟨e, he, hfe⟩
    rcases List.mem_cons.mp he with rfl | hmem
    · rw [List.filterMap_cons, hfe]
      have := List.length_filterMap_le f xs
      simp only [List.length_cons]
      omega
    · have hlt := ih ⟨e, hmem, hfe⟩
      rw [List.filterMap_cons]
      cases f x with
      | none => simp only [List.length_cons]; omega
      | some b => simp only [List.length_cons]; omega

/-- Every line a processed event contributes starts with the bullet
marker. -/
theorem processEvent_some (e : JVal) (l : String)
    (h : processEvent e = .ok (some l)) : ∃ rest, l = "- " ++ rest := by
  unfold processEvent at h
  repeat' split at h
  all_goals first
    | exact Except.noConfusion h
    | exact Option.noConfusion (Except.ok.inj h)
    | exact ⟨_, (Option.some.inj (Except.ok.inj h)).symm⟩

/-- Every line the loop adds to the accumulator starts with the bullet
marker. -/
theorem formatLoop_mem (l : List JVal) (acc lines : List String)
    (h : formatLoop l acc = .ok lines) (x : String) (hx : x ∈ lines) :
    x ∈ acc ∨ ∃ rest, x = "- " ++ rest := by
  induction l generalizing acc with
  | nil =>
    unfold formatLoop at h
    cases h
    exact Or.inl hx
  | cons e rest ih =>
    unfold formatLoop at h
    cases hpe : processEvent e with
    | error ex => rw [hpe] at h; cases h
    | ok o =>
      rw [hpe] at h
      cases o with
      | none => exact ih acc h
      | some line =>
        rcases ih (acc ++ [line]) h with hmem | hpre
        · rcases List.mem_append.mp hmem with h1 | h2
          · exact Or.inl h1
          · right
            have hx : x = line := by simpa using h2
            subst hx
            exact processEvent_some e x hpe
        · exact Or.inr hpre

/-- A username with a non-empty strip fails neither emptiness test. -/
theorem stripGuard (u : String) (hu : pyStrip u ≠ "") :
    (u == "" || pyStrip u == "") = false := by
  have h1 : u ≠ "" := by
    intro h
    subst h
    exact hu rfl
  simp [h1, hu]

/-! ## Claim theorems -/

/-- C1 (counterexample): `format_activity` does NOT return a list of lines
for every input shape.  A `PushEvent` whose `payload` is the number 5
makes the matched template call `.get` on an int, which raises
`AttributeError`; that exception is not in the caught `(KeyError,
TypeError)` pair, so the whole call raises and the well-formed subsequent
event is never processed. -/
theorem format_raises_on_wrong_shape_cex :
    format_activity [evBadPush, evWatchGood] = Except.error PyExn.attributeError := rfl

/-- C1 (amended): provided every event in the 10-event window processes
without an uncaught exception (in particular, every wrong-shape failure
inside a matched template is a `KeyError` or `TypeError`), `format_activity`
never raises: it returns exactly the lines of the surviving events in
input order, and an event whose matched template fails with `KeyError` or
`TypeError` is silently skipped — it contributes no line and does not
abort the processing of subsequent events. -/
theorem format_skips_caught_failures_amended (events : List JVal)
    (h : ∀ e ∈ events.take 10, noRaise e = true) :
    format_activity events = Except.ok ((events.take 10).filterMap lineOf) ∧
    (∀ e s, dictGet e "type" JVal.null = Except.ok (JVal.str s) → s ∈ eventKeys →
      (applyFormatter s e = Except.error PyExn.keyError ∨
       applyFormatter s e = Except.error PyExn.typeError) →
      processEvent e = Except.ok none) := by
  constructor
  · unfold format_activity
    rw [formatLoop_ok _ [] h]
    simp
  · intro e s hty hmem happ
    have hc : eventKeys.contains s = true := List.elem_iff.mpr hmem
    have hdc : dictContains eventKeys (JVal.str s) = Except.ok (some s) := by
      simp [dictContains, hc, hmem]
    unfold processEvent
    rw [hty]
    simp only [hdc]
    rcases happ with h1 | h1 <;> simp [h1]

/-- C1 witness: a malformed `PushEvent` (no `payload` key, a `KeyError`
inside the matched template) followed by a well-formed `WatchEvent`:
the call returns, the bad event is skipped, the good one still reports. -/
theorem format_skips_caught_failures_amended_witness :
    format_activity [evPushNoPayload, evWatchGood] =
      Except.ok (([evPushNoPayload, evWatchGood].take 10).filterMap lineOf) ∧
    processEvent evPushNoPayload = Except.ok none :=
  ⟨(format_skips_caught_failures_amended [evPushNoPayload, evWatchGood] (by decide)).1,
   (format_skips_caught_failures_amended [evPushNoPayload, evWatchGood] (by decide)).2
     evPushNoPayload "PushEvent" rfl (by decide) (Or.inl rfl)⟩

/-- C2 (counterexample): an `IssuesEvent` whose action is `"reOPENED"`
renders as `"- Reopened an issue in a/b"` — Python `str.capitalize`
lower-cases the remainder — not as `"- ReOPENED an issue in a/b"` as the
claim states. -/
theorem capitalize_remainder_cex :
    format_activity [evIssuesReopened] = Except.ok ["- Reopened an issue in a/b"] ∧
    "- Reopened an issue in a/b" ≠ "- ReOPENED an issue in a/b" :=
  ⟨rfl, by decide⟩

/-- C2 (amended): for every `IssuesEvent`, `PullRequestEvent` or
`ReleaseEvent` whose `payload.action` is a string, the produced line
renders the action with its first character upper-cased and the remainder
of the string LOWER-CASED (Python `str.capitalize`); e.g. `"reOPENED"`
renders as `"Reopened"`. -/
theorem action_rendered_capitalized_amended (a r : String) :
    format_activity [actionEvent "IssuesEvent" a r] =
      Except.ok ["- " ++ pyCapitalizeStr a ++ " an issue in " ++ r] ∧
    format_activity [actionEvent "PullRequestEvent" a r] =
      Except.ok ["- " ++ pyCapitalizeStr a ++ " a pull request in " ++ r] ∧
    format_activity [actionEvent "ReleaseEvent" a r] =
      Except.ok ["- " ++ pyCapitalizeStr a ++ " a release in " ++ r] ∧
    pyCapitalizeStr "reOPENED" = "Reopened" := by
  refine ⟨?_, ?_, ?_, rfl⟩
  · have h0 : format_activity [actionEvent "IssuesEvent" a r] =
        Except.ok ["- " ++ (pyCapitalizeStr a ++ (" an issue in " ++ r))] := rfl
    rw [h0]
    simp [String.append_assoc]
  · have h0 : format_activity [actionEvent "PullRequestEvent" a r] =
        Except.ok ["- " ++ (pyCapitalizeStr a ++ (" a pull request in " ++ r))] := rfl
    rw [h0]
    simp [String.append_assoc]
  · have h0 : format_activity [actionEvent "ReleaseEvent" a r] =
        Except.ok ["- " ++ (pyCapitalizeStr a ++ (" a release in " ++ r))] := rfl
    rw [h0]
    simp [String.append_assoc]

/-- C10: an event with no `type` key at all is not skipped: `event.get`
yields Python `None`, which is not a formatter key, so the fallback
branch renders the absent type as the text `"None"`. -/
theorem missing_type_renders_none (r : String) :
    format_activity [JVal.obj [("repo", JVal.obj [("name", JVal.str r)])]] =
      Except.ok ["- None in " ++ r] ∧
    format_activity [JVal.obj []] = Except.ok ["- None in unknown repository"] := by
  constructor
  · have h0 : format_activity [JVal.obj [("repo", JVal.obj [("name", JVal.str r)])]] =
        Except.ok ["- " ++ ("None" ++ (" in " ++ r))] := rfl
    rw [h0]
    have h1 : "- " ++ ("None" ++ (" in " ++ r)) = "- None in " ++ r := by
      rw [← String.append_assoc, ← String.append_assoc]
      exact append_congr_right (by decide) r
    rw [h1]
  · rfl

/-- C3: `format_activity` truncates to the first 10 raw input events
before any per-event formatting or skipping: the result only depends on
the first 10 events (events beyond the tenth are ignored entirely); among
the surviving events the output preserves input order (it is exactly the
in-order `filterMap` of the per-event lines over the window); and when
some event of the window is skipped, the output has fewer than 10 lines —
even when well-formed events exist past position 10. -/
theorem format_truncates_to_first_ten (events : List JVal) :
    format_activity events = format_activity (events.take 10) ∧
    ((∀ e ∈ events.take 10, noRaise e = true) →
      format_activity events = Except.ok ((events.take 10).filterMap lineOf)) ∧
    ((∃ e ∈ events.take 10, lineOf e = none) →
      ((events.take 10).filterMap lineOf).length < 10) := by
  refine ⟨?_, ?_, ?_⟩
  · unfold format_activity
    rw [List.take_take]
    norm_num
  · intro h
    unfold format_activity
    rw [formatLoop_ok _ [] h]
    simp
  · intro h
    have h1 := filterMap_none_lt lineOf (events.take 10) h
    have h2 : (events.take 10).length ≤ 10 := List.length_take_le 10 events
    omega

/-- C3 witness: eleven events, the first malformed: the ten-event window
is formatted, the malformed event is skipped inside it, and the result
has nine lines even though a well-formed event sits at position 11. -/
theorem format_truncates_to_first_ten_witness :
    format_activity evElevenList = Except.ok ((evElevenList.take 10).filterMap lineOf) ∧
    ((evElevenList.take 10).filterMap lineOf).length < 10 :=
  ⟨(format_truncates_to_first_ten evElevenList).2.1 (by decide),
   (format_truncates_to_first_ten evElevenList).2.2 (by decide)⟩

/-- C6: a `PushEvent` with a payload lacking `size` renders with the
default 0; a `CreateEvent`/`DeleteEvent` with a payload lacking
`ref_type` renders with the default `"repository"`/`"branch"` — the
default-accessed fields never cause a skip; but a `PushEvent` with no
`payload` key at all is skipped and contributes no line. -/
theorem default_fields_no_skip (r : String) :
    format_activity [JVal.obj [("type", JVal.str "PushEvent"), ("payload", JVal.obj []),
        ("repo", JVal.obj [("name", JVal.str r)])]] =
      Except.ok ["- Pushed 0 commit(s) to " ++ r] ∧
    format_activity [JVal.obj [("type", JVal.str "CreateEvent"), ("payload", JVal.obj []),
        ("repo", JVal.obj [("name", JVal.str r)])]] =
      Except.ok ["- Created repository in " ++ r] ∧
    format_activity [JVal.obj [("type", JVal.str "DeleteEvent"), ("payload", JVal.obj []),
        ("repo", JVal.obj [("name", JVal.str r)])]] =
      Except.ok ["- Deleted branch in " ++ r] ∧
    format_activity [JVal.obj [("type", JVal.str "PushEvent"),
        ("repo", JVal.obj [("name", JVal.str r)])]] =
      Except.ok [] := by
  refine ⟨?_, ?_, ?_, rfl⟩
  · have h0 : format_activity [JVal.obj [("type", JVal.str "PushEvent"), ("payload", JVal.obj []),
        ("repo", JVal.obj [("name", JVal.str r)])]] =
        Except.ok ["- " ++ ("Pushed " ++ ("0" ++ (" commit(s) to " ++ r)))] := rfl
    rw [h0]
    have h1 : "- " ++ ("Pushed " ++ ("0" ++ (" commit(s) to " ++ r))) =
        "- Pushed 0 commit(s) to " ++ r := by
      rw [← String.append_assoc, ← String.append_assoc, ← String.append_assoc]
      exact append_congr_right (by decide) r
    rw [h1]
  · have h0 : format_activity [JVal.obj [("type", JVal.str "CreateEvent"), ("payload", JVal.obj []),
        ("repo", JVal.obj [("name", JVal.str r)])]] =
        Except.ok ["- " ++ ("Created " ++ ("repository" ++ (" in " ++ r)))] := rfl
    rw [h0]
    have h1 : "- " ++ ("Created " ++ ("repository" ++ (" in " ++ r))) =
        "- Created repository in " ++ r := by
      rw [← String.append_assoc, ← String.append_assoc, ← String.append_assoc]
      exact append_congr_right (by decide) r
    rw [h1]
  · have h0 : format_activity [JVal.obj [("type", JVal.str "DeleteEvent"), ("payload", JVal.obj []),
        ("repo", JVal.obj [("name", JVal.str r)])]] =
        Except.ok ["- " ++ ("Deleted " ++ ("branch" ++ (" in " ++ r)))] := rfl
    rw [h0]
    have h1 : "- " ++ ("Deleted " ++ ("branch" ++ (" in " ++ r))) =
        "- Deleted branch in " ++ r := by
      rw [← String.append_assoc, ← String.append_assoc, ← String.append_assoc]
      exact append_congr_right (by decide) r
    rw [h1]

/-- C7: an event whose type tag is none of the nine template keys takes
the fallback branch `"- <type> in <repo.name>"`, rendering
`"unknown repository"` when `repo.name` is absent; and every produced
line — template or fallback — starts with the `"- "` bullet marker. -/
theorem unknown_type_fallback (t r : String) (ht : t ∉ eventKeys) :
    format_activity [JVal.obj [("type", JVal.str t), ("repo", JVal.obj [("name", JVal.str r)])]] =
      Except.ok ["- " ++ t ++ " in " ++ r] ∧
    format_activity [JVal.obj [("type", JVal.str t)]] =
      Except.ok ["- " ++ t ++ " in unknown repository"] ∧
    (∀ events lines, format_activity events = Except.ok lines →
      ∀ x ∈ lines, ∃ rest, x = "- " ++ rest) := by
  have hc : eventKeys.contains t = false := by
    cases hcon : eventKeys.contains t
    · rfl
    · exact absurd (List.elem_iff.mp hcon) ht
  have hdc : dictContains eventKeys (JVal.str t) = Except.ok none := by
    simp [dictContains, hc, ht]
  refine ⟨?_, ?_, ?_⟩
  · have hpe : processEvent (JVal.obj [("type", JVal.str t),
        ("repo", JVal.obj [("name", JVal.str r)])]) =
        Except.ok (some ("- " ++ (t ++ (" in " ++ r)))) := by
      unfold processEvent
      rw [show dictGet (JVal.obj [("type", JVal.str t),
        ("repo", JVal.obj [("name", JVal.str r)])]) "type" JVal.null =
          Except.ok (JVal.str t) from rfl]
      simp only [hdc]
      rfl
    have h10 : format_activity [JVal.obj [("type", JVal.str t),
        ("repo", JVal.obj [("name", JVal.str r)])]] =
        formatLoop [JVal.obj [("type", JVal.str t),
          ("repo", JVal.obj [("name", JVal.str r)])]] [] := rfl
    rw [h10]
    simp only [formatLoop, hpe, List.nil_append]
    rw [show ("- " ++ (t ++ (" in " ++ r)) : String) = "- " ++ t ++ " in " ++ r by
      rw [String.append_assoc, String.append_assoc]]
  · have hpe : processEvent (JVal.obj [("type", JVal.str t)]) =
        Except.ok (some ("- " ++ (t ++ (" in " ++ "unknown repository")))) := by
      unfold processEvent
      rw [show dictGet (JVal.obj [("type", JVal.str t)]) "type" JVal.null =
          Except.ok (JVal.str t) from rfl]
      simp only [hdc]
      rfl
    have h10 : format_activity [JVal.obj [("type", JVal.str t)]] =
        formatLoop [JVal.obj [("type", JVal.str t)]] [] := rfl
    rw [h10]
    simp only [formatLoop, hpe, List.nil_append]
    rw [show ("- " ++ (t ++ (" in " ++ "unknown repository")) : String) =
        "- " ++ t ++ " in unknown repository" by rw [String.append_assoc]; rfl]
  · intro events lines hfmt x hx
    unfold format_activity at hfmt
    rcases formatLoop_mem (events.take 10) [] lines hfmt x hx with hmem | hpre
    · simp at hmem
    · exact hpre

/-- C7 witness: `"UnknownType"` is not among the nine keys; with and
without a repo name the fallback line is produced. -/
theorem unknown_type_fallback_witness :
    format_activity [JVal.obj [("type", JVal.str "UnknownType"),
        ("repo", JVal.obj [("name", JVal.str "q/r")])]] =
      Except.ok ["- " ++ "UnknownType" ++ " in " ++ "q/r"] :=
  (unknown_type_fallback "UnknownType" "q/r" (by decide)).1

/-- C4: for every username that is empty or strips to empty, the fetch
fails with the InvalidInput kind (`ValueError("Username cannot be
empty")`), and the result does not depend on the network at all — no
network call is observable. -/
theorem fetch_empty_username (u : String) (hu : pyStrip u = "")
    (net net2 : String → NetResult) :
    fetch_user_activity u net =
      Except.error (FetchError.invalidInput "Username cannot be empty") ∧
    fetch_user_activity u net = fetch_user_activity u net2 := by
  refine ⟨?_, ?_⟩ <;> simp [fetch_user_activity, hu]

/-- C4 witness: the all-whitespace username fails without the network
being consulted. -/
theorem fetch_empty_username_witness :
    fetch_user_activity "   " (fun _ => NetResult.urlError "dns failure") =
      Except.error (FetchError.invalidInput "Username cannot be empty") :=
  (fetch_empty_username "   " (by decide) (fun _ => NetResult.urlError "dns failure")
    (fun _ => NetResult.httpError 500 "err")).1

/-- C5: for a non-empty-stripping username, an HTTP error status is
classified as: 404 fails with the InvalidInput kind and a message
containing the requested username; 403 fails with the ConnectionProblem
kind and a message mentioning the rate limit; every other error status
fails with the ConnectionProblem kind carrying the numeric status code
and the reason phrase delivered by the provider. -/
theorem fetch_http_error_classification (u : String) (hu : pyStrip u ≠ "")
    (code : Nat) (reason : String) (net : String → NetResult)
    (hnet : net (request_url u) = NetResult.httpError code reason) :
    (code = 404 →
      fetch_user_activity u net =
        Except.error (FetchError.invalidInput ("User \x27" ++ u ++ "\x27 not found")) ∧
      ∃ p q, "User \x27" ++ u ++ "\x27 not found" = p ++ u ++ q) ∧
    (code = 403 →
      fetch_user_activity u net =
        Except.error (FetchError.connectionProblem
          "API rate limit exceeded. Please try again later.") ∧
      ∃ p q, "API rate limit exceeded. Please try again later." =
        p ++ "rate limit" ++ q) ∧
    (code ≠ 404 → code ≠ 403 →
      fetch_user_activity u net =
        Except.error (FetchError.connectionProblem
          ("HTTP error " ++ toString code ++ ": " ++ reason))) := by
  have hg := stripGuard u hu
  refine ⟨?_, ?_, ?_⟩
  · rintro rfl
    refine ⟨?_, "User \x27", "\x27 not found", rfl⟩
    simp [fetch_user_activity, hg, hnet]
  · rintro rfl
    refine ⟨?_, "API ", " exceeded. Please try again later.", by decide⟩
    simp [fetch_user_activity, hg, hnet]
  · intro h4 h3
    simp [fetch_user_activity, hg, hnet, h4, h3]

/-- C5 witness: a 403 delivery for a valid username is reported as the
rate-limit ConnectionProblem. -/
theorem fetch_http_error_classification_witness :
    fetch_user_activity "bob" (fun _ => NetResult.httpError 403 "Forbidden") =
      Except.error (FetchError.connectionProblem
        "API rate limit exceeded. Please try again later.") :=
  ((fetch_http_error_classification "bob" (by decide) 403 "Forbidden"
    (fun _ => NetResult.httpError 403 "Forbidden") rfl).2.1 rfl).1

/-- C8: for a non-empty-stripping username, a 200 response whose body
parses as a JSON array is returned verbatim (the very same parsed value,
no validation, no filtering), and a 200 response whose body fails to
parse as JSON fails with the ConnectionProblem kind. -/
theorem fetch_returns_parsed_array (u : String) (hu : pyStrip u ≠ "")
    (xs : List JVal) (net1 net2 : String → NetResult)
    (h1 : net1 (request_url u) = NetResult.ok 200 (some (JVal.arr xs)))
    (h2 : net2 (request_url u) = NetResult.ok 200 none) :
    fetch_user_activity u net1 = Except.ok (JVal.arr xs) ∧
    fetch_user_activity u net2 =
      Except.error (FetchError.connectionProblem "Invalid response from GitHub API") := by
  have hg := stripGuard u hu
  constructor <;> simp [fetch_user_activity, hg, h1, h2]

/-- C8 witness: a concrete array comes back unchanged. -/
theorem fetch_returns_parsed_array_witness :
    fetch_user_activity "bob" (fun _ => NetResult.ok 200 (some (JVal.arr [evWatchGood]))) =
      Except.ok (JVal.arr [evWatchGood]) :=
  (fetch_returns_parsed_array "bob" (by decide) [evWatchGood]
    (fun _ => NetResult.ok 200 (some (JVal.arr [evWatchGood])))
    (fun _ => NetResult.ok 200 none) rfl rfl).1

/-- C9 (counterexample): the code interpolates the username into the URL
WITHOUT trimming (line 42 uses `username`, not `username.strip()`), so a
username with surrounding whitespace yields a different request URL from
its trimmed form. -/
theorem request_url_untrimmed_cex :
    request_url " bob " = "https://api.github.com/users/ bob /events" ∧
    pyStrip " bob " = "bob" ∧
    request_url " bob " ≠ request_url "bob" :=
  ⟨rfl, rfl, by decide⟩

/-- C9 (amended): the request URL is built by concatenating the fixed
base URL with the username exactly as given; hence a username with
surrounding whitespace yields a DIFFERENT request URL from its trimmed
form whenever the two differ. -/
theorem request_url_uses_raw_username (u : String) (h : u ≠ pyStrip u) :
    request_url u ≠ request_url (pyStrip u) := by
  intro heq
  apply h
  unfold request_url at heq
  have hd := congrArg String.data heq
  simp only [String.data_append, List.append_assoc] at hd
  have hd2 := List.append_cancel_left hd
  have hd3 := List.append_cancel_left hd2
  have hd4 := List.append_cancel_right hd3
  exact String.ext hd4

/-- C9 witness: `" bob "` and its stripped form produce different URLs. -/
theorem request_url_uses_raw_username_witness :
    request_url " bob " ≠ request_url (pyStrip " bob ") :=
  request_url_uses_raw_username " bob " (by decide)
